import Mathlib

/-!
Verification of the FloatChat ingestion pipeline.

This file gives a shallow embedding of the pipeline implemented in
src/data_processing/netcdf_processor.py, src/database/connection.py and
src/pages/1_Data_Ingestion.py, and proves the stated properties about it.

Machine floating-point values are embedded as the inductive type FloatB:
a finite value carries a rational, and NaN and the two infinities are
explicit constructors, so that the source checks np.isnan / np.isinf can
be translated branch for branch.  Python exceptions are embedded with
Except: a function whose body sits inside a try/except block is split
into a core computation in the Except monad plus a wrapper applying the
handler of the except branch.
-/

namespace FloatChat

/-- Embedding of a raw floating-point value as read out of a NetCDF
variable: either a finite value (carried as a rational) or one of the
non-finite IEEE values NaN, plus infinity, minus infinity. -/
inductive FloatB where
  | fin (q : ℚ)
  | nan
  | inf
  | neginf
deriving DecidableEq

/-- Embedding of np.isnan on a scalar. -/
def FloatB.isnan : FloatB → Bool
  | .nan => true
  | _ => false

/-- Embedding of np.isinf on a scalar. -/
def FloatB.isinf : FloatB → Bool
  | .inf => true
  | .neginf => true
  | _ => false

/-- A value is finite when it is neither NaN nor infinite. -/
def FloatB.isFinite : FloatB → Bool
  | .fin _ => true
  | _ => false

/-- Embedding of an opened xarray dataset: each NetCDF variable the
source code reads is an optional array (present in ds.variables or not).
Pressure-channel quality-control entries are embedded as Option Int: a
some entry is a value the Python int(...) conversion accepts, a none
entry is one on which int(...) raises.  The source also collects the QC
arrays of the other six parameters into its quality_flags dict but never
reads them back, so only PRES_QC is carried here. -/
structure Dataset where
  platform_number : Option (List String) := none
  cycle_number : Option (List Int) := none
  latitude : Option (List FloatB) := none
  longitude : Option (List FloatB) := none
  juld : Option (List FloatB) := none
  data_centre : Option (List String) := none
  data_center : Option (List String) := none
  dims_n_levels : Option Nat := none
  pres : Option (List FloatB) := none
  temp : Option (List FloatB) := none
  psal : Option (List FloatB) := none
  doxy : Option (List FloatB) := none
  nitrate : Option (List FloatB) := none
  ph_in_situ_total : Option (List FloatB) := none
  chla : Option (List FloatB) := none
  pres_qc : Option (List (Option Int)) := none
deriving DecidableEq

/-- Membership test for a variable name in ds.variables. -/
def hasVariable (ds : Dataset) : String → Bool
  | "PLATFORM_NUMBER" => ds.platform_number.isSome
  | "CYCLE_NUMBER" => ds.cycle_number.isSome
  | "LATITUDE" => ds.latitude.isSome
  | "LONGITUDE" => ds.longitude.isSome
  | "JULD" => ds.juld.isSome
  | "DATA_CENTRE" => ds.data_centre.isSome
  | "DATA_CENTER" => ds.data_center.isSome
  | "PRES" => ds.pres.isSome
  | "TEMP" => ds.temp.isSome
  | "PSAL" => ds.psal.isSome
  | "DOXY" => ds.doxy.isSome
  | "NITRATE" => ds.nitrate.isSome
  | "PH_IN_SITU_TOTAL" => ds.ph_in_situ_total.isSome
  | "CHLA" => ds.chla.isSome
  | "PRES_QC" => ds.pres_qc.isSome
  | _ => false

/-- Embedding of a file-system path as the ingestion code sees it:
whether os.path.exists succeeds, the extension returned by
os.path.splitext, the outcome of xr.open_dataset (a dataset, or a parse
or I/O failure with its message), and the outcome of reading the raw
bytes in binary mode (a list of 4096-byte chunks, or an I/O failure). -/
structure PyFile where
  pathExists : Bool := true
  ext : String := ".nc"
  openResult : Except String Dataset := Except.error "open failed"
  readBytes : Except String (List (List Nat)) := Except.error "read failed"

/-- NetCDFProcessor.supported_formats. -/
def supported_formats : List String := [".nc", ".netcdf"]

/-- NetCDFProcessor.required_variables. -/
def required_variables : List String := ["PRES", "TEMP", "PSAL"]

/-- Embedding of the Python str.lower applied to the extension, acting
on the character list of the string. -/
def strToLower (s : String) : String := String.mk (s.data.map Char.toLower)

/-- Embedding of NetCDFProcessor.validate_file (netcdf_processor.py lines
24-46).  The whole body sits in a try/except returning False, so the
function is total and Bool-valued: a missing path, a wrong extension, an
open failure, and the failing variable check all return false.  Note the
source tests any(var in ds.variables for var in self.required_variables):
the check passes as soon as at least one of PRES, TEMP, PSAL is present. -/
def validate_file (f : PyFile) : Bool :=
  if f.pathExists = false then false
  else if (supported_formats.contains (strToLower f.ext)) = false then false
  else
    match f.openResult with
    | .error _ => false
    | .ok ds =>
      if (required_variables.any (fun v => hasVariable ds v)) = false then false
      else true

/-- Embedding of NetCDFProcessor.calculate_file_hash (lines 48-58).  The
MD5 digest itself is kept abstract as a parameter md5hex applied to the
concatenation of the streamed chunks; the except branch returns the
empty string when reading the bytes fails. -/
def calculate_file_hash (md5hex : List Nat → String) (f : PyFile) : String :=
  match f.readBytes with
  | .ok chunks => md5hex chunks.flatten
  | .error _ => ""

/-- A profile measurement date as the code produces it: either the fixed
epoch 1950-01-01 plus a day offset (pd.Timestamp plus pd.Timedelta), or
the current processing time datetime.now(). -/
inductive MDate where
  | epochPlusDays (d : ℚ)
  | now
deriving DecidableEq

/-- One measurement dict built for a level by extract_measurements; a
none field is a key absent from the dict or a key set to Python None
(the two are indistinguishable to every consumer via dict.get). -/
structure Measurement where
  pressure : Option FloatB := none
  temperature : Option FloatB := none
  salinity : Option FloatB := none
  oxygen : Option FloatB := none
  nitrate : Option FloatB := none
  ph : Option FloatB := none
  chlorophyll : Option FloatB := none
  depth : Option FloatB := none
  quality_flag : Int := 1
deriving DecidableEq

/-- Per-level value extraction (lines 194-202): for a variable present
in the variables dict, take index i if in range, keep the value when it
is neither NaN nor infinite, else None; an absent variable contributes
an absent field. -/
def extractVal (arr? : Option (List FloatB)) (i : Nat) : Option FloatB :=
  match arr? with
  | none => none
  | some arr =>
    match arr[i]? with
    | some v => if !v.isnan && !v.isinf then some v else none
    | none => none

/-- Quality-flag determination for level i (lines 209-217): default 1;
when a PRES_QC array is present and covers the level, the int(...)
conversion of its entry when that succeeds, else 1. -/
def qualityFlagAt (ds : Dataset) (i : Nat) : Int :=
  match ds.pres_qc with
  | some arr =>
    match arr[i]? with
    | some e =>
      match e with
      | some k => k
      | none => 1
    | none => 1
  | none => 1

/-- The measurement dict built for level i (lines 190-217): extracted
values for each parameter, derived depth copied from the pressure field
when that is present (the key stays absent otherwise), and the quality
flag. -/
def buildMeasurement (ds : Dataset) (i : Nat) : Measurement :=
  let pressure := extractVal ds.pres i
  { pressure := pressure
    temperature := extractVal ds.temp i
    salinity := extractVal ds.psal i
    oxygen := extractVal ds.doxy i
    nitrate := extractVal ds.nitrate i
    ph := extractVal ds.ph_in_situ_total i
    chlorophyll := extractVal ds.chla i
    depth := match pressure with
             | some v => some v
             | none => none
    quality_flag := qualityFlagAt ds i }

/-- The level count resolution of extract_measurements (lines 137-143):
the N_LEVELS dimension when declared, else the length of PRES, else the
function bails out with an empty list. -/
def rawLevelCount (ds : Dataset) : Option Nat :=
  match ds.dims_n_levels with
  | some n => some n
  | none => ds.pres.map List.length

/-- Embedding of NetCDFProcessor.extract_measurements (lines 131-228).
The record validator validate_measurement_data lives in database/schema
(imported, outside this tree), so it is a parameter: each built dict is
kept exactly when the validator accepts it. -/
def extract_measurements (validate : Measurement → Bool) (ds : Dataset) :
    List Measurement :=
  match rawLevelCount ds with
  | none => []
  | some n =>
    if ds.pres.isSome = false then []
    else if ds.temp.isSome = false then []
    else if ds.psal.isSome = false then []
    else ((List.range n).map (buildMeasurement ds)).filter validate

/-- The profile dict handed to DatabaseManager.insert_profile: the
metadata produced by process_file with the content digest added
(netcdf_processor.py line 249). -/
structure ProfileData where
  float_id : String := "unknown"
  cycle_number : Int := 0
  latitude : Option FloatB := none
  longitude : Option FloatB := none
  measurement_date : Option MDate := none
  platform_number : Option String := none
  data_center : String := "unknown"
  file_hash : String := ""
deriving DecidableEq

/-- A row of the argo_profiles table (connection.py lines 38-51): the
SERIAL surrogate id plus the inserted columns; file_hash carries a
UNIQUE constraint. -/
structure ProfileRow where
  id : Nat
  float_id : String := "unknown"
  cycle_number : Int := 0
  latitude : Option FloatB := none
  longitude : Option FloatB := none
  measurement_date : Option MDate := none
  platform_number : Option String := none
  data_center : String := "unknown"
  file_hash : String := ""
deriving DecidableEq

/-- A row of the argo_measurements table (lines 54-68); profile_id is
nullable in the schema. -/
structure MeasurementRow where
  profile_id : Option Nat := none
  pressure : Option FloatB := none
  temperature : Option FloatB := none
  salinity : Option FloatB := none
  depth : Option FloatB := none
  oxygen : Option FloatB := none
  nitrate : Option FloatB := none
  ph : Option FloatB := none
  chlorophyll : Option FloatB := none
  quality_flag : Int := 1
deriving DecidableEq

/-- The relational store: the two tables touched by ingestion plus the
next value of the argo_profiles id sequence.  The vectors field records
the (summary text, profile id) pairs appended to the FAISS index, which
is a separate store and holds no relational rows. -/
structure DBState where
  profiles : List ProfileRow := []
  measurements : List MeasurementRow := []
  nextId : Nat := 1
  vectors : List (String × Option Nat) := []
deriving DecidableEq

/-- Errors surfaced by the database driver; an integrity error carries
the server message, which for a unique-constraint violation names the
violated constraint. -/
inductive DBError where
  | integrity (msg : String)
  | other (msg : String)
deriving DecidableEq

/-- The PostgreSQL message raised when the INSERT of insert_profile hits
the unique constraint on the file_hash column. -/
def uniqueViolationMsg : String :=
  "duplicate key value violates unique constraint \"argo_profiles_file_hash_key\""

/-- Does the first character list start with the second one. -/
def charsStartWith : List Char → List Char → Bool
  | _, [] => true
  | [], _ :: _ => false
  | h :: t, n :: m => h == n && charsStartWith t m

/-- Does the first character list contain the second one as a
contiguous run. -/
def charsContain (hay needle : List Char) : Bool :=
  charsStartWith hay needle ||
    match hay with
    | [] => false
    | _ :: t => charsContain t needle

/-- Embedding of the Python substring test (needle in haystack), acting
on the character lists of the strings. -/
def strContains (hay needle : String) : Bool :=
  charsContain hay.data needle.data

/-- Embedding of DatabaseManager.get_profile_id_by_hash (connection.py
lines 152-161): SELECT id FROM argo_profiles WHERE file_hash = h, first
row if any. -/
def get_profile_id_by_hash (s : DBState) (h : String) : Option Nat :=
  match s.profiles.find? (fun r => r.file_hash == h) with
  | some r => some r.id
  | none => none

/-- The row written by the INSERT of insert_profile (lines 108-116). -/
def mkProfileRow (id : Nat) (pd : ProfileData) : ProfileRow :=
  { id := id
    float_id := pd.float_id
    cycle_number := pd.cycle_number
    latitude := pd.latitude
    longitude := pd.longitude
    measurement_date := pd.measurement_date
    platform_number := pd.platform_number
    data_center := pd.data_center
    file_hash := pd.file_hash }

/-- Embedding of DatabaseManager.insert_profile (lines 104-129).  When
no existing row shares the file_hash the INSERT succeeds and RETURNING
id yields the next sequence value.  When one does, the driver raises an
IntegrityError whose message names the file_hash constraint; the except
branch tests that substring and answers with the lookup by hash (an
Option, as the lookup may itself return None), leaving the store
unchanged.  An integrity error not mentioning file_hash would be
re-raised. -/
def insert_profile (s : DBState) (pd : ProfileData) :
    Except DBError (Option Nat × DBState) :=
  if s.profiles.any (fun r => r.file_hash == pd.file_hash) then
    if strContains uniqueViolationMsg "file_hash" then
      .ok (get_profile_id_by_hash s pd.file_hash, s)
    else
      .error (.integrity uniqueViolationMsg)
  else
    .ok (some s.nextId,
         { s with profiles := s.profiles ++ [mkProfileRow s.nextId pd]
                  nextId := s.nextId + 1 })

/-- The row written for one measurement dict by insert_measurements
(lines 139-145), after the loop stamped profile_id into the dict. -/
def mkMeasurementRow (pid : Option Nat) (m : Measurement) : MeasurementRow :=
  { profile_id := pid
    pressure := m.pressure
    temperature := m.temperature
    salinity := m.salinity
    depth := m.depth
    oxygen := m.oxygen
    nitrate := m.nitrate
    ph := m.ph
    chlorophyll := m.chlorophyll
    quality_flag := m.quality_flag }

/-- Embedding of DatabaseManager.insert_measurements (lines 131-150):
executemany appends one row per dict. -/
def insert_measurements (s : DBState) (pid : Option Nat)
    (ms : List Measurement) : DBState :=
  { s with measurements := s.measurements ++ ms.map (mkMeasurementRow pid) }

/-- Embedding of store_data_in_database (1_Data_Ingestion.py lines
74-109).  The cleaning and interpolation steps live in
data_processing/data_transformer.py and the summary builder in the
transformer as well, all outside this tree, so they are parameters.
The vector-store add touches only the vector index, never the two
relational tables. -/
def store_data_in_database
    (clean interp : List Measurement → List Measurement)
    (summarize : List Measurement → ProfileData → String)
    (s : DBState) (pd : ProfileData) (ms : List Measurement) :
    Except DBError (Option Nat × DBState) := do
  let (profile_id, s1) ← insert_profile s pd
  if ms.isEmpty then
    return (profile_id, s1)
  else
    let cleaned := interp (clean ms)
    let s2 := insert_measurements s1 profile_id cleaned
    let s3 := { s2 with vectors := s2.vectors ++ [(summarize cleaned pd, profile_id)] }
    return (profile_id, s3)

/-- Outcome of one file in the ingestion loop of 1_Data_Ingestion.py
main (lines 155-199): skipped duplicates report the existing id,
successes report the id returned by store_data_in_database, and a
raised exception is caught into an error entry. -/
inductive IngestStatus where
  | skipped (profile_id : Nat)
  | success (profile_id : Option Nat)
  | failed
deriving DecidableEq

/-- Embedding of the per-file body of the ingestion loop (lines
155-199), starting from the extracted profile metadata and measurement
dicts.  With skip_duplicates set, a truthy lookup by hash (a non-None,
nonzero id, per Python truthiness) short-circuits to a skipped entry
with that id and touches no store; otherwise the data is stored. -/
def ingest (clean interp : List Measurement → List Measurement)
    (summarize : List Measurement → ProfileData → String)
    (skip_duplicates : Bool) (s : DBState) (pd : ProfileData)
    (ms : List Measurement) : IngestStatus × DBState :=
  let proceed : IngestStatus × DBState :=
    match store_data_in_database clean interp summarize s pd ms with
    | .ok (pid, s1) => (.success pid, s1)
    | .error _ => (.failed, s)
  if skip_duplicates then
    match get_profile_id_by_hash s pd.file_hash with
    | some pid => if pid != 0 then (.skipped pid, s) else proceed
    | none => proceed
  else proceed

/-- Modelled from the spec: DataTransformer.clean_measurements
(data_processing/data_transformer.py, not under src/).  Spec section 4.3
folds all record dropping into the extraction-time validator and
describes no further record removal before insertion, so cleaning keeps
the already-accepted records. -/
def clean_measurements (ms : List Measurement) : List Measurement := ms

/-- Modelled from the spec: DataTransformer.interpolate_missing_depth
(data_processing/data_transformer.py, not under src/).  Spec sections 3
and 4.3 derive depth from pressure when present; filling a missing depth
alters no record count and no other field. -/
def interpolate_missing_depth (ms : List Measurement) : List Measurement :=
  ms.map (fun m =>
    match m.depth, m.pressure with
    | none, some p => { m with depth := some p }
    | _, _ => m)

/-- Modelled from the spec: DataTransformer.create_profile_summary
(data_processing/data_transformer.py, not under src/).  The summary is
free text built from measurement statistics and metadata; its content
never reaches the relational tables, so an abstract rendering
suffices. -/
def create_profile_summary (ms : List Measurement) (pd : ProfileData) : String :=
  pd.float_id ++ " profile with " ++ toString ms.length ++ " measurements"

section GeoSearch

open scoped Classical

/-- The SQL radians function. -/
noncomputable def radians (x : ℝ) : ℝ := x * Real.pi / 180

/-- The great-circle distance expression of the SELECT list of
DatabaseManager.search_profiles_by_location (connection.py lines
247-249), with the placeholders filled as lat, lon, lat and the row
columns plat, plon. -/
noncomputable def selectDistanceExpr (lat lon plat plon : ℝ) : ℝ :=
  6371 * Real.arccos (Real.cos (radians lat) * Real.cos (radians plat) *
    Real.cos (radians plon - radians lon) +
    Real.sin (radians lat) * Real.sin (radians plat))

/-- The great-circle distance expression of the WHERE predicate of the
same query (lines 251-253), with the placeholders filled as lat, lon,
lat. -/
noncomputable def whereDistanceExpr (lat lon plat plon : ℝ) : ℝ :=
  6371 * Real.arccos (Real.cos (radians lat) * Real.cos (radians plat) *
    Real.cos (radians plon - radians lon) +
    Real.sin (radians lat) * Real.sin (radians plat))

/-- The ORDER BY distance_km comparison between two result rows. -/
def distLE (a b : ProfileRow × ℝ) : Prop := a.2 ≤ b.2

instance : IsTotal (ProfileRow × ℝ) distLE :=
  ⟨fun a b => le_total a.2 b.2⟩

instance : IsTrans (ProfileRow × ℝ) distLE :=
  ⟨fun _ _ _ h1 h2 => le_trans h1 h2⟩

noncomputable instance : DecidableRel distLE :=
  fun _ _ => Classical.propDecidable _

/-- Embedding of DatabaseManager.search_profiles_by_location (lines
241-262).  A row whose latitude or longitude is NULL or non-finite
fails the NULL-propagating (respectively NaN-rejecting) WHERE
comparison and is dropped; a surviving row carries the SELECT distance
column; rows are ordered by the distance column ascending and capped by
LIMIT 50. -/
noncomputable def search_profiles_by_location (s : DBState)
    (lat lon radius_km : ℝ) : List (ProfileRow × ℝ) :=
  let candidates := s.profiles.filterMap (fun r =>
    match r.latitude, r.longitude with
    | some (FloatB.fin a), some (FloatB.fin b) =>
      if whereDistanceExpr lat lon (a : ℝ) (b : ℝ) ≤ radius_km then
        some (r, selectDistanceExpr lat lon (a : ℝ) (b : ℝ))
      else none
    | _, _ => none)
  (List.insertionSort distLE candidates).take 50

end GeoSearch

/-! Theorems. -/

/-- A dataset exposing pressure and temperature arrays but no salinity
array. -/
def dsPresTempOnly : Dataset :=
  { pres := some [FloatB.fin 10], temp := some [FloatB.fin 5] }

/-- An existing .nc file that opens to dsPresTempOnly. -/
def filePresTempOnly : PyFile :=
  { pathExists := true, ext := ".nc", openResult := .ok dsPresTempOnly }

/-- C3 counterexample: a file missing the salinity array (one of the
three required arrays) is nevertheless reported valid, because the
source tests any rather than all of the required variables. -/
theorem validate_file_missing_psal_true :
    hasVariable dsPresTempOnly "PSAL" = false ∧
    validate_file filePresTempOnly = true := by
  exact ⟨rfl, by decide⟩

/-- C3 amended: for an existing file with an accepted extension that
opens successfully, validate_file returns true exactly when at least one
of the pressure, temperature and salinity arrays is present; in
particular a file with all three is valid and a file with none of the
three is invalid. -/
theorem validate_file_any_required (f : PyFile) (ds : Dataset)
    (hex : f.pathExists = true)
    (hext : supported_formats.contains (strToLower f.ext) = true)
    (hopen : f.openResult = .ok ds) :
    validate_file f = (ds.pres.isSome || ds.temp.isSome || ds.psal.isSome) := by
  unfold validate_file
  rw [hex, hext, hopen]
  cases hp : ds.pres <;> cases ht : ds.temp <;> cases hs : ds.psal <;>
    simp [required_variables, hasVariable, hp, ht, hs]

/-- A dataset exposing all three required arrays. -/
def dsAllThree : Dataset :=
  { pres := some [FloatB.fin 10], temp := some [FloatB.fin 5],
    psal := some [FloatB.fin 35] }

/-- An existing .nc file that opens to dsAllThree. -/
def fileAllThree : PyFile :=
  { pathExists := true, ext := ".nc", openResult := .ok dsAllThree }

/-- Witness for the amended C3 theorem at a concrete file containing all
three required arrays. -/
theorem validate_file_any_required_witness :
    validate_file fileAllThree =
      (dsAllThree.pres.isSome || dsAllThree.temp.isSome ||
       dsAllThree.psal.isSome) :=
  validate_file_any_required fileAllThree dsAllThree rfl (by decide) rfl

/-- C9: validate_file is a total Bool-valued function (the whole body is
inside a try/except returning False), and each failure mode — a missing
path, an unaccepted extension, a failure opening or inspecting the file
— yields the return value false. -/
theorem validate_file_false_on_failures (f : PyFile)
    (h : f.pathExists = false ∨
         supported_formats.contains (strToLower f.ext) = false ∨
         ∃ e, f.openResult = Except.error e) :
    validate_file f = false := by
  rcases h with h1 | h2 | ⟨e, he⟩
  · simp [validate_file, h1]
  · unfold validate_file
    rw [h2]
    simp
  · unfold validate_file
    rw [he]
    simp

/-- Witness for C9 at a concrete non-existent path. -/
theorem validate_file_false_on_failures_witness :
    validate_file { pathExists := false } = false :=
  validate_file_false_on_failures { pathExists := false } (Or.inl rfl)

/-- C10: when reading the file bytes fails, calculate_file_hash returns
the empty string instead of raising, for every digest function, so the
deduplication key for such a file is the empty string rather than a hash
of the file bytes. -/
theorem calculate_file_hash_io_failure (md5hex : List Nat → String)
    (f : PyFile) (e : String) (h : f.readBytes = Except.error e) :
    calculate_file_hash md5hex f = "" := by
  unfold calculate_file_hash
  rw [h]

/-- Witness for C10 at a concrete failing read. -/
theorem calculate_file_hash_io_failure_witness :
    calculate_file_hash (fun _ => "d41d8cd98f00b204e9800998ecf8427e")
      { readBytes := Except.error "Permission denied" } = "" :=
  calculate_file_hash_io_failure _ _ "Permission denied" rfl

/-- The numeric fields of a measurement dict: the three required
physical parameters, the four biogeochemical parameters, and the
derived depth. -/
def numericFields (m : Measurement) : List (Option FloatB) :=
  [m.pressure, m.temperature, m.salinity, m.oxygen, m.nitrate, m.ph,
   m.chlorophyll, m.depth]

/-- A value stored by per-level extraction is finite: the source keeps a
raw value only after the NaN and infinity checks both pass. -/
theorem extractVal_isFinite (arr? : Option (List FloatB)) (i : Nat)
    (v : FloatB) (h : extractVal arr? i = some v) : v.isFinite = true := by
  cases arr? with
  | none => simp [extractVal] at h
  | some arr =>
    cases harr : arr[i]? with
    | none => simp [extractVal, harr] at h
    | some w =>
      simp only [extractVal, harr] at h
      by_cases hc : (!w.isnan && !w.isinf) = true
      · rw [if_pos hc] at h
        obtain rfl : w = v := by injection h
        cases w <;> simp_all [FloatB.isnan, FloatB.isinf, FloatB.isFinite]
      · rw [if_neg hc] at h
        exact absurd h (by simp)

/-- An identity match on an option returns the option. -/
theorem option_match_id (o : Option FloatB) :
    (match o with | some v => some v | none => none) = o := by
  cases o <;> rfl

/-- Every numeric field of a built measurement dict holds a finite value
when it holds one at all. -/
theorem buildMeasurement_finite (ds : Dataset) (i : Nat) (o : Option FloatB)
    (ho : o ∈ numericFields (buildMeasurement ds i)) (v : FloatB)
    (hv : o = some v) : v.isFinite = true := by
  subst hv
  simp only [numericFields, buildMeasurement, option_match_id,
    List.mem_cons, List.not_mem_nil, or_false] at ho
  rcases ho with h | h | h | h | h | h | h | h <;>
    exact extractVal_isFinite _ i v h.symm

/-- An accepted record of extract_measurements is the dict built for
some level index. -/
theorem mem_extract_measurements (validate : Measurement → Bool)
    (ds : Dataset) (m : Measurement)
    (hm : m ∈ extract_measurements validate ds) :
    ∃ i, m = buildMeasurement ds i := by
  unfold extract_measurements at hm
  cases hn : rawLevelCount ds with
  | none => rw [hn] at hm; exact absurd hm (by simp)
  | some n =>
    rw [hn] at hm
    split_ifs at hm with h1 h2 h3
    · exact absurd hm (by simp)
    · exact absurd hm (by simp)
    · exact absurd hm (by simp)
    · have hmap := List.mem_of_mem_filter hm
      obtain ⟨i, _, hi⟩ := List.mem_map.mp hmap
      exact ⟨i, hi.symm⟩

/-- C4: for any record validator, the accepted-record list of
extract_measurements has length at most the raw level count, and every
numeric field of every accepted record that holds a value holds a
finite one — NaN and infinite raw values are never kept. -/
theorem extract_measurements_bounded_and_finite
    (validate : Measurement → Bool) (ds : Dataset) :
    (extract_measurements validate ds).length ≤ (rawLevelCount ds).getD 0 ∧
    ∀ m ∈ extract_measurements validate ds, ∀ o ∈ numericFields m,
      ∀ v : FloatB, o = some v → v.isFinite = true := by
  constructor
  · unfold extract_measurements
    cases hn : rawLevelCount ds with
    | none => simp
    | some n =>
      simp only [hn, Option.getD_some]
      split_ifs with h1 h2 h3
      · simp
      · simp
      · simp
      · calc (((List.range n).map (buildMeasurement ds)).filter validate).length
            ≤ ((List.range n).map (buildMeasurement ds)).length :=
              List.length_filter_le _ _
          _ = n := by simp
  · intro m hm o ho v hv
    obtain ⟨i, hi⟩ := mem_extract_measurements validate ds m hm
    subst hi
    exact buildMeasurement_finite ds i o ho v hv

/-- Witness for C4 at a concrete dataset and validator: the length bound
holds and the accepted pressure value 10 is finite. -/
theorem extract_measurements_bounded_and_finite_witness :
    (extract_measurements (fun _ => true) dsAllThree).length ≤
      (rawLevelCount dsAllThree).getD 0 ∧
    FloatB.isFinite (FloatB.fin 10) = true :=
  ⟨(extract_measurements_bounded_and_finite (fun _ => true) dsAllThree).1,
   (extract_measurements_bounded_and_finite (fun _ => true) dsAllThree).2
     (buildMeasurement dsAllThree 0) (by decide)
     (some (FloatB.fin 10)) (by decide) (FloatB.fin 10) rfl⟩

/-- C5: in every accepted record the derived depth field equals the
pressure field whenever pressure is present, and is absent whenever
pressure is absent (for any record validator). -/
theorem extract_measurements_depth_pressure
    (validate : Measurement → Bool) (ds : Dataset) :
    ∀ m ∈ extract_measurements validate ds,
      (∀ v : FloatB, m.pressure = some v → m.depth = some v) ∧
      (m.pressure = none → m.depth = none) := by
  intro m hm
  obtain ⟨i, hi⟩ := mem_extract_measurements validate ds m hm
  subst hi
  constructor
  · intro v hv
    simp only [buildMeasurement] at hv ⊢
    rw [hv]
  · intro hv
    simp only [buildMeasurement] at hv ⊢
    rw [hv]

/-- Witness for C5 at a concrete dataset: the accepted record has depth
equal to its pressure value 10. -/
theorem extract_measurements_depth_pressure_witness :
    (buildMeasurement dsAllThree 0).depth = some (FloatB.fin 10) :=
  ((extract_measurements_depth_pressure (fun _ => true) dsAllThree
      (buildMeasurement dsAllThree 0) (by decide)).1) (FloatB.fin 10) (by decide)

/-- C6: the quality flag of the dict built at a level equals the parsed
pressure-channel QC value when a PRES_QC array is present, covers the
level, and its entry parses as an integer; it equals 1 when there is no
PRES_QC array, when the level is out of range, and when parsing
fails. -/
theorem quality_flag_rule (ds : Dataset) (i : Nat) :
    (buildMeasurement ds i).quality_flag = qualityFlagAt ds i ∧
    (∀ arr k, ds.pres_qc = some arr → arr[i]? = some (some k) →
      qualityFlagAt ds i = k) ∧
    (ds.pres_qc = none → qualityFlagAt ds i = 1) ∧
    (∀ arr, ds.pres_qc = some arr → arr.length ≤ i →
      qualityFlagAt ds i = 1) ∧
    (∀ arr, ds.pres_qc = some arr → arr[i]? = some none →
      qualityFlagAt ds i = 1) := by
  refine ⟨rfl, ?_, ?_, ?_, ?_⟩
  · intro arr k h1 h2
    simp [qualityFlagAt, h1, h2]
  · intro h
    simp [qualityFlagAt, h]
  · intro arr h1 h2
    simp [qualityFlagAt, h1, List.getElem?_eq_none h2]
  · intro arr h1 h2
    simp [qualityFlagAt, h1, h2]

/-- A dataset whose pressure QC array has the single parseable entry 4. -/
def dsQC : Dataset := { pres_qc := some [some 4] }

/-- Witness for C6 at a concrete dataset: the flag at level 0 is the
parsed QC value 4. -/
theorem quality_flag_rule_witness : qualityFlagAt dsQC 0 = 4 :=
  (quality_flag_rule dsQC 0).2.1 [some 4] 4 rfl rfl

/-- Hash uniqueness invariant of the argo_profiles table: the UNIQUE
constraint on file_hash guarantees no two distinct rows share a
digest. -/
def HashUnique (s : DBState) : Prop :=
  ∀ r1 ∈ s.profiles, ∀ r2 ∈ s.profiles, r1.file_hash = r2.file_hash → r1 = r2

/-- Under the uniqueness invariant, the lookup by digest of a stored row
returns exactly that row identifier. -/
theorem get_profile_id_by_hash_mem (s : DBState) (r : ProfileRow)
    (hr : r ∈ s.profiles) (huniq : HashUnique s) :
    get_profile_id_by_hash s r.file_hash = some r.id := by
  unfold get_profile_id_by_hash
  have hsome : (s.profiles.find? (fun x => x.file_hash == r.file_hash)).isSome := by
    rw [List.find?_isSome]
    exact ⟨r, hr, by simp⟩
  obtain ⟨r2, hfind⟩ := Option.isSome_iff_exists.mp hsome
  rw [hfind]
  have hmem := List.mem_of_find?_eq_some hfind
  have hpred := List.find?_some hfind
  have heq : r2.file_hash = r.file_hash := by simpa using hpred
  rw [huniq r2 hmem r hr heq]

/-- C2: a profile insert hitting the uniqueness violation on the content
digest does not propagate the error: the driver message names the
file_hash constraint, the handler re-queries the store by that digest,
and the identifier of the already-existing row is returned with the
store left unchanged. -/
theorem insert_profile_conflict_returns_existing (s : DBState)
    (pd : ProfileData) (r : ProfileRow) (hr : r ∈ s.profiles)
    (hh : r.file_hash = pd.file_hash) (huniq : HashUnique s) :
    insert_profile s pd = .ok (some r.id, s) := by
  unfold insert_profile
  have hany : s.profiles.any (fun x => x.file_hash == pd.file_hash) = true := by
    rw [List.any_eq_true]
    exact ⟨r, hr, by simp [hh]⟩
  rw [if_pos hany, if_pos (by decide : strContains uniqueViolationMsg "file_hash" = true)]
  rw [← hh, get_profile_id_by_hash_mem s r hr huniq]

/-- A measurement record as accepted for the stored profile. -/
def mA : Measurement :=
  { pressure := some (FloatB.fin 10), temperature := some (FloatB.fin 5),
    salinity := some (FloatB.fin 35), depth := some (FloatB.fin 10) }

/-- A stored profile row with digest abc123. -/
def rowA : ProfileRow := { id := 1, file_hash := "abc123" }

/-- A store holding that one profile and its two measurement rows. -/
def stateA : DBState :=
  { profiles := [rowA],
    measurements := [mkMeasurementRow (some 1) mA, mkMeasurementRow (some 1) mA],
    nextId := 2 }

/-- Extracted profile data carrying the already-stored digest abc123. -/
def pdA : ProfileData := { float_id := "F1", file_hash := "abc123" }

/-- Witness for C2 at a concrete store: inserting a profile with the
stored digest returns identifier 1 and the unchanged store. -/
theorem insert_profile_conflict_returns_existing_witness :
    insert_profile stateA pdA = .ok (some rowA.id, stateA) :=
  insert_profile_conflict_returns_existing stateA pdA rowA
    (by decide) rfl (by simp only [HashUnique]; decide)

/-- C1 amended: with duplicate skipping enabled (the default in the
ingestion page), re-running ingestion on data whose content digest
already has a profile row returns that row identifier as a skipped
result and leaves the Profile and Measurement row counts unchanged;
with skipping disabled the same identifier is still returned, but the
measurement rows are appended again (see the counterexample). -/
theorem ingest_duplicate_skips
    (clean interp : List Measurement → List Measurement)
    (summarize : List Measurement → ProfileData → String) (s : DBState)
    (pd : ProfileData) (ms : List Measurement) (r : ProfileRow)
    (hr : r ∈ s.profiles) (hh : r.file_hash = pd.file_hash)
    (hid : r.id ≠ 0) (huniq : HashUnique s) :
    ingest clean interp summarize true s pd ms = (.skipped r.id, s) ∧
    (ingest clean interp summarize true s pd ms).2.profiles.length =
      s.profiles.length ∧
    (ingest clean interp summarize true s pd ms).2.measurements.length =
      s.measurements.length := by
  have hget : get_profile_id_by_hash s pd.file_hash = some r.id := by
    rw [← hh]
    exact get_profile_id_by_hash_mem s r hr huniq
  have hbne : (r.id != 0) = true := by simpa [bne_iff_ne] using hid
  have hmain : ingest clean interp summarize true s pd ms = (.skipped r.id, s) := by
    unfold ingest
    simp [hget, hbne]
  exact ⟨hmain, by rw [hmain], by rw [hmain]⟩

/-- Witness for the amended C1 theorem at a concrete store: the skipped
result reports identifier 1 and both row counts are unchanged. -/
theorem ingest_duplicate_skips_witness :
    ingest clean_measurements interpolate_missing_depth create_profile_summary
        true stateA pdA [mA] = (.skipped rowA.id, stateA) ∧
    (ingest clean_measurements interpolate_missing_depth create_profile_summary
        true stateA pdA [mA]).2.profiles.length = stateA.profiles.length ∧
    (ingest clean_measurements interpolate_missing_depth create_profile_summary
        true stateA pdA [mA]).2.measurements.length =
      stateA.measurements.length :=
  ingest_duplicate_skips clean_measurements interpolate_missing_depth
    create_profile_summary stateA pdA [mA] rowA (by decide) rfl
    (by decide) (by simp only [HashUnique]; decide)

/-- C1 counterexample: running the ingestion storage path without the
duplicate pre-check (the store_data_in_database route, reached when the
skip-duplicates option is off) on data whose digest already has a
profile row returns the same identifier but appends the measurement
rows again: the Measurement row count grows from 2 to 3, refuting
unconditional idempotence of re-ingestion. -/
theorem ingest_no_skip_duplicates_measurements :
    get_profile_id_by_hash stateA pdA.file_hash = some 1 ∧
    (ingest clean_measurements interpolate_missing_depth create_profile_summary
        false stateA pdA [mA]).1 = IngestStatus.success (some 1) ∧
    stateA.measurements.length = 2 ∧
    (ingest clean_measurements interpolate_missing_depth create_profile_summary
        false stateA pdA [mA]).2.measurements.length = 3 := by
  refine ⟨?_, ?_, ?_, ?_⟩ <;> decide

/-- The single stored profile located exactly at the query point
(20.0, 65.0). -/
def rowExact : ProfileRow :=
  { id := 1, latitude := some (FloatB.fin 20),
    longitude := some (FloatB.fin 65), file_hash := "loc" }

/-- A store holding only that profile. -/
def stateExact : DBState := { profiles := [rowExact], nextId := 2 }

/-- C8: the SELECT distance column and the WHERE filter predicate use
the same great-circle formula; the returned rows are ordered by that
distance ascending; the result set never exceeds the LIMIT cap of 50;
and the nearest-profile query from (20.0, 65.0) with radius 100 km
against a store holding one profile exactly at (20.0, 65.0) returns
that profile ranked first with distance exactly 0 km. -/
theorem search_profiles_by_location_spec :
    (∀ lat lon plat plon : ℝ,
      selectDistanceExpr lat lon plat plon =
        whereDistanceExpr lat lon plat plon) ∧
    (∀ (s : DBState) (lat lon radius : ℝ),
      (search_profiles_by_location s lat lon radius).length ≤ 50) ∧
    (∀ (s : DBState) (lat lon radius : ℝ),
      List.Sorted distLE (search_profiles_by_location s lat lon radius)) ∧
    search_profiles_by_location stateExact 20 65 100 = [(rowExact, 0)] := by
  refine ⟨fun _ _ _ _ => rfl, ?_, ?_, ?_⟩
  · intro s lat lon radius
    unfold search_profiles_by_location
    simp [List.length_take]
  · intro s lat lon radius
    unfold search_profiles_by_location
    exact List.Pairwise.sublist (List.take_sublist _ _)
      (List.sorted_insertionSort distLE _)
  · have hdist : whereDistanceExpr 20 65 ((20 : ℚ) : ℝ) ((65 : ℚ) : ℝ) = 0 := by
      have e1 : ((20 : ℚ) : ℝ) = (20 : ℝ) := by norm_num
      have e2 : ((65 : ℚ) : ℝ) = (65 : ℝ) := by norm_num
      rw [e1, e2]
      unfold whereDistanceExpr
      rw [sub_self, Real.cos_zero, mul_one]
      have h3 : Real.cos (radians 20) * Real.cos (radians 20) +
          Real.sin (radians 20) * Real.sin (radians 20) = 1 := by
        have h4 := Real.sin_sq_add_cos_sq (radians 20)
        nlinarith [h4]
      rw [h3, Real.arccos_one, mul_zero]
    have hsel : selectDistanceExpr 20 65 ((20 : ℚ) : ℝ) ((65 : ℚ) : ℝ) = 0 :=
      hdist
    unfold search_profiles_by_location
    simp only [stateExact, rowExact, List.filterMap_cons, List.filterMap_nil]
    rw [hdist, hsel]
    norm_num

end FloatChat
